import Mathlib

/-!
Verification development for the geofence violation pipeline.

The pipeline (ingestion consumer, violation store, notification scanner,
purge sweeper) is shallowly embedded: the document store is a pair of lists
(the userVehicles and violations collections), each handler becomes a pure
function from an explicit store (plus oracles for the outcomes of external
calls: geofence evaluation, email send, database failures) to a result
record that captures the observable outcome of one invocation.

Naming follows the source: the spec's `notificationState = Unsent/Sent`
corresponds to the code's `warningSent : Bool` field, `notifiedAt` to
`warningSentAt`, `ownerEmail` to `email`, `recordedAt` to `created`.
JavaScript `undefined` for possibly-absent message fields is modelled with
`Option`; `randomUUID` is modelled by an externally supplied identifier
together with freshness hypotheses; `Date` values are modelled as `Nat`.
-/

namespace GeofencePipeline

/-- Ownership record in the userVehicles collection: maps a vehicle id
(field vid) to the owner's email. -/
structure VehicleRec where
  vid : String
  email : String
deriving DecidableEq, Repr

/-- Violation document as inserted by storeViolation: violationId is the
UUID (modelled as Nat), warningSent is the notification state
(false = Unsent, true = Sent), warningSentAt the mark time, created the
server-assigned creation time. Coordinates and timestamp come from the
inbound message and may be undefined (none). -/
structure Violation where
  violationId : Nat
  vehicleId : Option String
  email : String
  latitude : Option Int
  longitude : Option Int
  timestamp : Option String
  warningSent : Bool
  warningSentAt : Option Nat
  created : Nat
deriving DecidableEq, Repr

/-- The document store: the geofence database's two collections. -/
structure Store where
  userVehicles : List VehicleRec
  violations : List Violation
deriving DecidableEq, Repr

/-- Inbound queue message body. The consumer destructures timestamp,
vehicleId, latitude, longitude; the generator additionally writes center,
radiusKm and points. Absent fields are none (JavaScript undefined). -/
structure GpsMessage where
  timestamp : Option String
  vehicleId : Option String
  latitude : Option Int
  longitude : Option Int
  center : Option (Int × Int)
  radiusKm : Option Int
  points : Option (List (Int × Int))
deriving DecidableEq, Repr

/-- Result object of a MongoDB updateOne call. -/
structure UpdateResult where
  matchedCount : Nat
  modifiedCount : Nat
deriving DecidableEq, Repr

/-- findVehicleUser (StoreViolationService.js): findOne on userVehicles
with filter on vid equal to the message's vehicleId; returns the first
matching document or none. An undefined vehicleId matches no record. -/
def findVehicleUser (vehicleId : Option String) (s : Store) : Option VehicleRec :=
  s.userVehicles.find? (fun r => some r.vid == vehicleId)

/-- Argument object passed from the ingestion handler to storeViolation. -/
structure ViolationData where
  vehicleId : Option String
  email : String
  latitude : Option Int
  longitude : Option Int
  timestamp : Option String
deriving DecidableEq, Repr

/-- storeViolation (StoreViolationService.js): insertOne of a new violation
document with a freshly generated violationId, warningSent set to false and
a server-side created timestamp. The fresh UUID and the server time are
passed in explicitly. -/
def storeViolation (violationId now : Nat) (d : ViolationData) (s : Store) : Store :=
  { s with violations := s.violations ++ [{
      violationId := violationId
      vehicleId := d.vehicleId
      email := d.email
      latitude := d.latitude
      longitude := d.longitude
      timestamp := d.timestamp
      warningSent := false
      warningSentAt := none
      created := now }] }

/-- Observable outcome of one processGpsData invocation: ok is whether the
handler returned without throwing, geofenceArgs records the pair
(longitude, latitude) passed to isWithinGeofence, lookedUp whether the
ownership lookup was attempted, store the final database state. -/
structure HandlerRun where
  ok : Bool
  geofenceArgs : Option Int × Option Int
  lookedUp : Bool
  store : Store
deriving DecidableEq, Repr

/-- processGpsData handler (ProcessGpsData.js lines 9-57). The geofence
predicate is the external GeofenceService.isWithinGeofence, passed as a
parameter. The oracles model external failures: geofenceThrows means the
evaluator threw (caught by the outer catch, which rethrows, so ok = false);
lookupFails and insertFails mean findVehicleUser respectively insertOne
threw — both are caught by the inner catch (dbError), which only logs, so
the invocation still succeeds with the store unchanged. -/
def processGpsData (isWithinGeofence : Option Int → Option Int → Bool)
    (geofenceThrows lookupFails insertFails : Bool)
    (freshViolationId now : Nat) (message : GpsMessage) (s : Store) : HandlerRun :=
  let latitude := message.latitude
  let longitude := message.longitude
  if geofenceThrows then
    { ok := false, geofenceArgs := (longitude, latitude), lookedUp := false, store := s }
  else if isWithinGeofence longitude latitude then
    { ok := true, geofenceArgs := (longitude, latitude), lookedUp := false, store := s }
  else if lookupFails then
    { ok := true, geofenceArgs := (longitude, latitude), lookedUp := true, store := s }
  else
    match findVehicleUser message.vehicleId s with
    | some vehicleRecord =>
      if insertFails then
        { ok := true, geofenceArgs := (longitude, latitude), lookedUp := true, store := s }
      else
        { ok := true, geofenceArgs := (longitude, latitude), lookedUp := true,
          store := storeViolation freshViolationId now
            { vehicleId := message.vehicleId
              email := vehicleRecord.email
              latitude := message.latitude
              longitude := message.longitude
              timestamp := message.timestamp } s }
    | none =>
      { ok := true, geofenceArgs := (longitude, latitude), lookedUp := true, store := s }

/-- getUnsentViolations (scanner file): find on violations with filter
warningSent equal to false. -/
def getUnsentViolations (s : Store) : List Violation :=
  s.violations.filter (fun v => !v.warningSent)

/-- The $set document applied by markViolationAsWarned: warningSent := true,
warningSentAt := current date. -/
def setWarned (now : Nat) (v : Violation) : Violation :=
  { v with warningSent := true, warningSentAt := some now }

/-- updateOne semantics on a list collection: apply f to the first document
matching p, leave the rest unchanged. -/
def updateFirst (p : Violation → Bool) (f : Violation → Violation) :
    List Violation → List Violation
  | [] => []
  | v :: vs => if p v then f v :: vs else v :: updateFirst p f vs

/-- markViolationAsWarned (scanner file lines 114-135): updateOne on the
violations collection with filter on violationId only, applying the
setWarned update. matchedCount is 1 when a document with that violationId
exists (regardless of its warningSent state), modifiedCount is 1 when the
update actually changed the document. -/
def markViolationAsWarned (violationId : Nat) (now : Nat) (s : Store) :
    UpdateResult × Store :=
  match s.violations.find? (fun v => v.violationId == violationId) with
  | none => ({ matchedCount := 0, modifiedCount := 0 }, s)
  | some v =>
      ({ matchedCount := 1, modifiedCount := if setWarned now v = v then 0 else 1 },
       { s with violations :=
          updateFirst (fun w => w.violationId == violationId) (setWarned now) s.violations })

/-- Observable outcome of one scanViolations timer invocation. -/
structure ScanRun where
  ok : Bool
  successCount : Nat
  failCount : Nat
  store : Store
deriving DecidableEq, Repr

/-- One iteration of the scanner's per-violation loop (scanner file lines
188-206): send the email, then mark the violation as warned; a thrown error
from either step is caught, the fail counter incremented, and the loop
continues with the next violation. sendFails and markFails are oracles for
whether the email send respectively the mark update throws on a given
violation record; a failed mark leaves the store unchanged. -/
def scanStep (sendFails markFails : Violation → Bool) (now : Nat)
    (acc : Nat × Nat × Store) (v : Violation) : Nat × Nat × Store :=
  if sendFails v then (acc.1, acc.2.1 + 1, acc.2.2)
  else if markFails v then (acc.1, acc.2.1 + 1, acc.2.2)
  else (acc.1 + 1, acc.2.1, (markViolationAsWarned v.violationId now acc.2.2).2)

/-- scanViolations timer handler (scanner file lines 170-217): fetch all
unsent violations (fetchFails models getUnsentViolations throwing, which
the outer catch rethrows), return early when there are none, otherwise fold
the per-violation loop over the fetched snapshot, accumulating success and
failure counts. -/
def scanViolations (fetchFails : Bool) (sendFails markFails : Violation → Bool)
    (now : Nat) (s : Store) : ScanRun :=
  if fetchFails then { ok := false, successCount := 0, failCount := 0, store := s }
  else
    let violations := getUnsentViolations s
    if violations.isEmpty then { ok := true, successCount := 0, failCount := 0, store := s }
    else
      let r := violations.foldl (scanStep sendFails markFails now) (0, 0, s)
      { ok := true, successCount := r.1, failCount := r.2.1, store := r.2.2 }

/-- purgeProcessedViolations (purgeData.js lines 49-76): count documents
with warningSent true; when zero, return deletedCount 0 without deleting;
otherwise deleteMany with filter warningSent true and report the number
deleted. Returns (deletedCount, new store). -/
def purgeProcessedViolations (s : Store) : Nat × Store :=
  let countBefore := (s.violations.filter (fun v => v.warningSent)).length
  if countBefore = 0 then (0, s)
  else (countBefore, { s with violations := s.violations.filter (fun v => !v.warningSent) })

/-- JavaScript truthiness fallback (a || b) for string configuration:
undefined or empty string selects the default. -/
def jsStringOr (v : Option String) (dflt : String) : String :=
  match v with
  | some str => if str = "" then dflt else str
  | none => dflt

/-- Configuration lookup that throws on a falsy value, as in the scanner's
and the purge sweeper's getMongoClient. -/
def requiredConfig (name : String) (v : Option String) : Except String String :=
  match v with
  | some str =>
      if str = "" then Except.error (name ++ " environment variable is not configured")
      else Except.ok str
  | none => Except.error (name ++ " environment variable is not configured")

/-- Hardcoded Cosmos DB connection string baked into
StoreViolationService.getMongoClient as the fallback. -/
def defaultCosmosConnectionString : String :=
  "mongodb://cst8917comosfinal:7i8YB2uwmMu1N3t7B9BUyxsrpOsMDE9z4P3xi1gcGGtkEK2ByRW2wAFfAyUcHN0yMAdQSBwKkgduACDbMkCm2w==@cst8917comosfinal.mongo.cosmos.azure.com:10255/?ssl=true&replicaSet=globaldb&retrywrites=false&maxIdleTimeMS=120000&appName=@cst8917comosfinal@"

/-- Connection-string resolution in StoreViolationService.getMongoClient
(lines 12-47): process.env.MONGODB_CONNECTION_STRING with a hardcoded
fallback — it never fails on missing configuration. -/
def storeServiceMongoConnectionString (env : Option String) : Except String String :=
  Except.ok (jsStringOr env defaultCosmosConnectionString)

/-- Connection-string resolution in the scanner file's getMongoClient
(lines 16-36): throws when MONGODB_CONNECTION_STRING is not configured. -/
def scannerMongoConnectionString (env : Option String) : Except String String :=
  requiredConfig "MONGODB_CONNECTION_STRING" env

/-- Connection-string resolution in purgeData.js getMongoClient (lines
12-42): throws when MONGODB_CONNECTION_STRING is not configured. -/
def purgeMongoConnectionString (env : Option String) : Except String String :=
  requiredConfig "MONGODB_CONNECTION_STRING" env

/-- Queue message built by the generateGpsPoints handler
(GenerateGpsData.js lines 110-127): fields timestamp, vehicleId, center,
radiusKm, points — and no top-level latitude or longitude. The concrete
timestamp string, random 4-digit vehicleId, center coordinates and
generated points are passed in as parameters. -/
def mkGeneratorMessage (now vehicleId : String)
    (centerLat centerLng radiusKm : Int) (points : List (Int × Int)) : GpsMessage :=
  { timestamp := some now
    vehicleId := some vehicleId
    latitude := none
    longitude := none
    center := some (centerLat, centerLng)
    radiusKm := some radiusKm
    points := some points }

/-! Concrete fixtures used by witnesses and counterexamples. -/

/-- Concrete outside-geofence fix used as witness input: vehicle V1 at
coordinates (50, 50) with timestamp T1, as in the spec's scenario. -/
def sampleMessage : GpsMessage :=
  { timestamp := some "T1", vehicleId := some "V1", latitude := some 50,
    longitude := some 50, center := none, radiusKm := none, points := none }

/-- Ownership record mapping V1 to a@x.com. -/
def sampleOwner : VehicleRec := { vid := "V1", email := "a@x.com" }

/-- Store holding the V1 ownership record and no violations. -/
def sampleStore : Store := { userVehicles := [sampleOwner], violations := [] }

/-- C9: for every fix the geofence evaluator reports inside the boundary,
the ingestion handler performs no ownership lookup and creates no
violation: the store is unchanged and the invocation succeeds. -/
theorem inside_fix_no_lookup_no_violation
    (isWithinGeofence : Option Int → Option Int → Bool)
    (lookupFails insertFails : Bool) (freshViolationId now : Nat)
    (message : GpsMessage) (s : Store)
    (hIn : isWithinGeofence message.longitude message.latitude = true) :
    processGpsData isWithinGeofence false lookupFails insertFails
      freshViolationId now message s =
      { ok := true, geofenceArgs := (message.longitude, message.latitude),
        lookedUp := false, store := s } := by
  simp [processGpsData, hIn]

/-- C9 witness: concrete inside fix, invocation succeeds with the store
untouched and no lookup. -/
theorem inside_fix_no_lookup_no_violation_witness :
    processGpsData (fun _ _ => true) false false false 1 0 sampleMessage sampleStore =
      { ok := true, geofenceArgs := (some 50, some 50),
        lookedUp := false, store := sampleStore } :=
  inside_fix_no_lookup_no_violation (fun _ _ => true) false false 1 0
    sampleMessage sampleStore rfl

/-- C8: for every outside-geofence fix whose vehicleId has no ownership
record, no violation is created and the handler returns normally: the event
is dropped, not retried. -/
theorem outside_fix_without_owner_drops_event
    (isWithinGeofence : Option Int → Option Int → Bool)
    (insertFails : Bool) (freshViolationId now : Nat)
    (message : GpsMessage) (s : Store)
    (hOut : isWithinGeofence message.longitude message.latitude = false)
    (hNone : findVehicleUser message.vehicleId s = none) :
    processGpsData isWithinGeofence false false insertFails
      freshViolationId now message s =
      { ok := true, geofenceArgs := (message.longitude, message.latitude),
        lookedUp := true, store := s } := by
  simp [processGpsData, hOut, hNone]

/-- C8 witness: concrete outside fix for an unknown vehicle against the
empty store: invocation succeeds and the store stays empty. -/
theorem outside_fix_without_owner_drops_event_witness :
    processGpsData (fun _ _ => false) false false false 1 0 sampleMessage
      { userVehicles := [], violations := [] } =
      { ok := true, geofenceArgs := (some 50, some 50), lookedUp := true,
        store := { userVehicles := [], violations := [] } } :=
  outside_fix_without_owner_drops_event (fun _ _ => false) false 1 0
    sampleMessage { userVehicles := [], violations := [] } rfl rfl

/-- C2 counterexample: an outside-geofence fix whose ownership lookup
throws is NOT surfaced — the invocation reports success and the store is
unchanged, contradicting the claim that the consumer invocation fails so
the queue redelivers the event. -/
theorem ingestion_lookup_failure_invocation_succeeds :
    (processGpsData (fun _ _ => false) false true false 1 0
        sampleMessage sampleStore).ok = true ∧
    (processGpsData (fun _ _ => false) false true false 1 0
        sampleMessage sampleStore).store = sampleStore := by
  decide

/-- C2 amended: lookup and persistence failures during ingestion of an
outside-geofence fix are caught by the handler's inner catch block and only
logged: the invocation completes successfully with the store unchanged, so
the event is dropped rather than retried. -/
theorem ingestion_db_failures_swallowed
    (isWithinGeofence : Option Int → Option Int → Bool)
    (insertAlsoFails : Bool) (freshViolationId now : Nat)
    (message : GpsMessage) (s : Store) (owner : VehicleRec)
    (hOut : isWithinGeofence message.longitude message.latitude = false)
    (hOwner : findVehicleUser message.vehicleId s = some owner) :
    ((processGpsData isWithinGeofence false true insertAlsoFails
        freshViolationId now message s).ok = true ∧
     (processGpsData isWithinGeofence false true insertAlsoFails
        freshViolationId now message s).store = s) ∧
    ((processGpsData isWithinGeofence false false true
        freshViolationId now message s).ok = true ∧
     (processGpsData isWithinGeofence false false true
        freshViolationId now message s).store = s) := by
  simp [processGpsData, hOut, hOwner]

/-- C2 amended witness: concrete outside fix with a resolvable owner, under
a lookup failure and under a persistence failure: both invocations succeed
and leave the store unchanged. -/
theorem ingestion_db_failures_swallowed_witness :
    ((processGpsData (fun _ _ => false) false true false 1 0
        sampleMessage sampleStore).ok = true ∧
     (processGpsData (fun _ _ => false) false true false 1 0
        sampleMessage sampleStore).store = sampleStore) ∧
    ((processGpsData (fun _ _ => false) false false true 1 0
        sampleMessage sampleStore).ok = true ∧
     (processGpsData (fun _ _ => false) false false true 1 0
        sampleMessage sampleStore).store = sampleStore) :=
  ingestion_db_failures_swallowed (fun _ _ => false) false 1 0
    sampleMessage sampleStore sampleOwner rfl rfl

/-- C3: an outside-geofence fix whose vehicleId resolves to an ownership
record persists exactly one new violation, appended to the collection,
carrying the fresh violationId (distinct from every existing one), the
owner's email denormalized from the ownership record, the fix's coordinates
and timestamp, and warningSent false (the Unsent state). -/
theorem outside_fix_with_owner_creates_one_unsent_violation
    (isWithinGeofence : Option Int → Option Int → Bool)
    (freshViolationId now : Nat) (message : GpsMessage) (s : Store)
    (owner : VehicleRec)
    (hOut : isWithinGeofence message.longitude message.latitude = false)
    (hOwner : findVehicleUser message.vehicleId s = some owner)
    (hFresh : ∀ v ∈ s.violations, v.violationId ≠ freshViolationId) :
    (processGpsData isWithinGeofence false false false
        freshViolationId now message s).ok = true ∧
    (processGpsData isWithinGeofence false false false
        freshViolationId now message s).store.userVehicles = s.userVehicles ∧
    (processGpsData isWithinGeofence false false false
        freshViolationId now message s).store.violations = s.violations ++ [{
      violationId := freshViolationId
      vehicleId := message.vehicleId
      email := owner.email
      latitude := message.latitude
      longitude := message.longitude
      timestamp := message.timestamp
      warningSent := false
      warningSentAt := none
      created := now }] ∧
    ∀ v ∈ s.violations, v.violationId ≠ freshViolationId := by
  refine ⟨?_, ?_, ?_, hFresh⟩ <;> simp [processGpsData, hOut, hOwner, storeViolation]

/-- C3 witness: the spec's scenario — fix for V1 at (50, 50) with owner
a@x.com: exactly one violation row appended with that email and Unsent
state. -/
theorem outside_fix_with_owner_creates_one_unsent_violation_witness :
    (processGpsData (fun _ _ => false) false false false 1 0
        sampleMessage sampleStore).ok = true ∧
    (processGpsData (fun _ _ => false) false false false 1 0
        sampleMessage sampleStore).store.userVehicles = sampleStore.userVehicles ∧
    (processGpsData (fun _ _ => false) false false false 1 0
        sampleMessage sampleStore).store.violations = sampleStore.violations ++ [{
      violationId := 1
      vehicleId := sampleMessage.vehicleId
      email := sampleOwner.email
      latitude := sampleMessage.latitude
      longitude := sampleMessage.longitude
      timestamp := sampleMessage.timestamp
      warningSent := false
      warningSentAt := none
      created := 0 }] ∧
    ∀ v ∈ sampleStore.violations, v.violationId ≠ 1 :=
  outside_fix_with_owner_creates_one_unsent_violation (fun _ _ => false) 1 0
    sampleMessage sampleStore sampleOwner rfl rfl (by decide)

/-- The handler always invokes the geofence check on exactly the pair
(longitude, latitude) destructured from the message, on every control
path. -/
lemma processGpsData_geofenceArgs
    (isWithinGeofence : Option Int → Option Int → Bool)
    (geofenceThrows lookupFails insertFails : Bool)
    (freshViolationId now : Nat) (message : GpsMessage) (s : Store) :
    (processGpsData isWithinGeofence geofenceThrows lookupFails insertFails
      freshViolationId now message s).geofenceArgs =
      (message.longitude, message.latitude) := by
  simp only [processGpsData]
  repeat' split
  all_goals rfl

/-- C10: the generator's queue message carries the fields timestamp,
vehicleId, center, radiusKm and points and no top-level latitude or
longitude; so when the ingestion handler destructures latitude and
longitude from such a message both are undefined, and the geofence check is
invoked on the undefined pair. -/
theorem generator_message_has_undefined_coordinates
    (isWithinGeofence : Option Int → Option Int → Bool)
    (geofenceThrows lookupFails insertFails : Bool)
    (freshViolationId now : Nat) (ts vid : String)
    (centerLat centerLng radiusKm : Int) (points : List (Int × Int)) (s : Store) :
    (mkGeneratorMessage ts vid centerLat centerLng radiusKm points).latitude = none ∧
    (mkGeneratorMessage ts vid centerLat centerLng radiusKm points).longitude = none ∧
    (mkGeneratorMessage ts vid centerLat centerLng radiusKm points).timestamp = some ts ∧
    (mkGeneratorMessage ts vid centerLat centerLng radiusKm points).vehicleId = some vid ∧
    (mkGeneratorMessage ts vid centerLat centerLng radiusKm points).center
      = some (centerLat, centerLng) ∧
    (mkGeneratorMessage ts vid centerLat centerLng radiusKm points).radiusKm
      = some radiusKm ∧
    (mkGeneratorMessage ts vid centerLat centerLng radiusKm points).points
      = some points ∧
    (processGpsData isWithinGeofence geofenceThrows lookupFails insertFails
      freshViolationId now
      (mkGeneratorMessage ts vid centerLat centerLng radiusKm points) s).geofenceArgs
      = (none, none) := by
  refine ⟨rfl, rfl, rfl, rfl, rfl, rfl, rfl, ?_⟩
  rw [processGpsData_geofenceArgs]
  rfl

/-- Appending violation documents does not change an ownership lookup:
findVehicleUser reads only the userVehicles collection. -/
lemma findVehicleUser_ignores_violations (vehicleId : Option String)
    (s : Store) (l : List Violation) :
    findVehicleUser vehicleId { s with violations := l } =
      findVehicleUser vehicleId s := rfl

/-- C6: ingestion is not idempotent under redelivery — delivering the same
outside-geofence fix twice, with the two (necessarily distinct) freshly
generated UUIDs, appends two violation records whose violationIds differ. -/
theorem redelivered_event_creates_two_violations
    (isWithinGeofence : Option Int → Option Int → Bool)
    (fresh1 fresh2 now1 now2 : Nat) (message : GpsMessage) (s : Store)
    (owner : VehicleRec)
    (hOut : isWithinGeofence message.longitude message.latitude = false)
    (hOwner : findVehicleUser message.vehicleId s = some owner)
    (hNe : fresh1 ≠ fresh2) :
    (processGpsData isWithinGeofence false false false fresh2 now2 message
      (processGpsData isWithinGeofence false false false fresh1 now1 message
        s).store).store.violations =
      s.violations ++ [
        { violationId := fresh1
          vehicleId := message.vehicleId
          email := owner.email
          latitude := message.latitude
          longitude := message.longitude
          timestamp := message.timestamp
          warningSent := false
          warningSentAt := none
          created := now1 },
        { violationId := fresh2
          vehicleId := message.vehicleId
          email := owner.email
          latitude := message.latitude
          longitude := message.longitude
          timestamp := message.timestamp
          warningSent := false
          warningSentAt := none
          created := now2 }] ∧
    fresh1 ≠ fresh2 := by
  have hOwner1 : ∀ l : List Violation,
      findVehicleUser message.vehicleId { s with violations := l } = some owner :=
    fun l => hOwner
  refine ⟨?_, hNe⟩
  simp [processGpsData, hOut, hOwner, storeViolation, hOwner1]

/-- C6 witness: delivering the V1 outside fix twice with fresh ids 1 and 2
yields a store holding two violations with distinct violationIds. -/
theorem redelivered_event_creates_two_violations_witness :
    (processGpsData (fun _ _ => false) false false false 2 5 sampleMessage
      (processGpsData (fun _ _ => false) false false false 1 0 sampleMessage
        sampleStore).store).store.violations =
      sampleStore.violations ++ [
        { violationId := 1
          vehicleId := sampleMessage.vehicleId
          email := sampleOwner.email
          latitude := sampleMessage.latitude
          longitude := sampleMessage.longitude
          timestamp := sampleMessage.timestamp
          warningSent := false
          warningSentAt := none
          created := 0 },
        { violationId := 2
          vehicleId := sampleMessage.vehicleId
          email := sampleOwner.email
          latitude := sampleMessage.latitude
          longitude := sampleMessage.longitude
          timestamp := sampleMessage.timestamp
          warningSent := false
          warningSentAt := none
          created := 5 }] ∧
    (1 : Nat) ≠ 2 :=
  redelivered_event_creates_two_violations (fun _ _ => false) 1 2 0 5
    sampleMessage sampleStore sampleOwner rfl rfl (by decide)

/-- Already-Sent violation record used to exercise a repeated MarkSent. -/
def sentViolation : Violation :=
  { violationId := 7, vehicleId := some "V7", email := "a@x.com",
    latitude := some 50, longitude := some 50, timestamp := some "T1",
    warningSent := true, warningSentAt := some 5, created := 1 }

/-- Store holding only the already-Sent record. -/
def sentStore : Store := { userVehicles := [], violations := [sentViolation] }

/-- C1 counterexample: invoking markViolationAsWarned on a record that is
already Sent reports matchedCount 1 — not 0 — and rewrites the record's
warningSentAt, so the update is not conditioned on the record still being
Unsent and the repeated MarkSent is not a no-op. -/
theorem markSent_on_sent_record_still_matches :
    (markViolationAsWarned 7 9 sentStore).1.matchedCount = 1 ∧
    ¬ (markViolationAsWarned 7 9 sentStore).1.matchedCount = 0 ∧
    (markViolationAsWarned 7 9 sentStore).2 ≠ sentStore := by
  decide

/-- If the first match of p in l is v and f preserves the projection of v,
then updating the first match leaves the projected list unchanged. -/
lemma updateFirst_map_eq {β : Type} (p : Violation → Bool)
    (f : Violation → Violation) (proj : Violation → β) (v : Violation) :
    ∀ l : List Violation, l.find? p = some v → proj (f v) = proj v →
      (updateFirst p f l).map proj = l.map proj := by
  intro l
  induction l with
  | nil => intro h; simp [List.find?] at h
  | cons x xs ih =>
      intro hfind hproj
      by_cases hx : p x
      · rw [List.find?_cons_of_pos _ hx] at hfind
        injection hfind with hv
        subst hv
        simp [updateFirst, hx, hproj]
      · rw [List.find?_cons_of_neg _ hx] at hfind
        simp [updateFirst, hx, ih hfind hproj]

/-- C1 amended: markViolationAsWarned filters on violationId only, so on a
record that is already Sent it reports matchedCount 1 (not the claimed
matched 0 no-op); the record stays Sent — the warningSent projection of the
whole collection is unchanged, only warningSentAt is rewritten — and the
collection keeps its length. -/
theorem markSent_unconditional_on_sent_record
    (s : Store) (violationId now : Nat) (v : Violation)
    (hfind : s.violations.find? (fun w => w.violationId == violationId) = some v)
    (hSent : v.warningSent = true) :
    (markViolationAsWarned violationId now s).1.matchedCount = 1 ∧
    (markViolationAsWarned violationId now s).2.violations.map
        (fun w => (w.violationId, w.warningSent)) =
      s.violations.map (fun w => (w.violationId, w.warningSent)) ∧
    (markViolationAsWarned violationId now s).2.violations.length =
      s.violations.length := by
  have hproj : (fun w => (w.violationId, w.warningSent)) (setWarned now v) =
      (fun w => (w.violationId, w.warningSent)) v := by
    simp [setWarned, hSent]
  refine ⟨?_, ?_, ?_⟩
  · simp [markViolationAsWarned, hfind]
  · simp only [markViolationAsWarned, hfind]
    exact updateFirst_map_eq _ _ _ v s.violations hfind hproj
  · simp only [markViolationAsWarned, hfind]
    have := congrArg List.length
      (updateFirst_map_eq _ (setWarned now)
        (fun w => (w.violationId, w.warningSent)) v s.violations hfind hproj)
    simpa using this

/-- C1 amended witness: repeating MarkSent on the concrete Sent record 7
matches it and leaves every record's (violationId, warningSent) pair — and
the collection length — unchanged. -/
theorem markSent_unconditional_on_sent_record_witness :
    (markViolationAsWarned 7 9 sentStore).1.matchedCount = 1 ∧
    (markViolationAsWarned 7 9 sentStore).2.violations.map
        (fun w => (w.violationId, w.warningSent)) =
      sentStore.violations.map (fun w => (w.violationId, w.warningSent)) ∧
    (markViolationAsWarned 7 9 sentStore).2.violations.length =
      sentStore.violations.length :=
  markSent_unconditional_on_sent_record sentStore 7 9 sentViolation
    (by decide) (by decide)

/-- C7 counterexample: with MONGODB_CONNECTION_STRING missing from the
environment, the violation store's getMongoClient does not fail — it
silently substitutes the hardcoded default Cosmos DB connection string. -/
theorem store_service_defaults_missing_config :
    storeServiceMongoConnectionString none =
      Except.ok defaultCosmosConnectionString := by
  rfl

/-- C7 amended: on a missing store connection string, the scanner's and the
purge sweeper's initialization fail with a surfaced configuration error,
but the violation store component used by ingestion instead falls back to a
hardcoded default connection string and proceeds. -/
theorem missing_store_config_behavior_per_component :
    scannerMongoConnectionString none =
      Except.error "MONGODB_CONNECTION_STRING environment variable is not configured" ∧
    purgeMongoConnectionString none =
      Except.error "MONGODB_CONNECTION_STRING environment variable is not configured" ∧
    storeServiceMongoConnectionString none =
      Except.ok defaultCosmosConnectionString := by
  exact ⟨rfl, rfl, rfl⟩

/-- Sent violation record number i for the sweeper scenario. -/
def mkSent (i : Nat) : Violation :=
  { violationId := i, vehicleId := some "V1", email := "a@x.com",
    latitude := some 50, longitude := some 50, timestamp := some "T1",
    warningSent := true, warningSentAt := some 2, created := 1 }

/-- Unsent violation record number i for the sweeper scenario. -/
def mkUnsent (i : Nat) : Violation :=
  { violationId := i, vehicleId := some "V1", email := "a@x.com",
    latitude := some 50, longitude := some 50, timestamp := some "T1",
    warningSent := false, warningSentAt := none, created := 1 }

/-- Store with 5 Sent and 2 Unsent violations, the spec's sweeper
scenario. -/
def sweepStore : Store :=
  { userVehicles := [],
    violations := [mkSent 1, mkSent 2, mkUnsent 3, mkSent 4, mkSent 5,
      mkUnsent 6, mkSent 7] }

/-- A filter retaining warningSent records that comes back empty means no
record is Sent, so the complementary filter keeps the whole collection. -/
lemma filter_unsent_eq_self_of_no_sent (l : List Violation)
    (h : (l.filter (fun v => v.warningSent)).length = 0) :
    l.filter (fun v => !v.warningSent) = l := by
  rw [List.length_eq_zero, List.filter_eq_nil_iff] at h
  exact List.filter_eq_self.mpr (fun a ha => by simpa using h a ha)

/-- C4: a purge sweeper run deletes exactly the violations with
warningSent true (the Sent records): the reported count is the number of
Sent records, the remaining collection is exactly the Unsent records —
every Unsent record survives unchanged and no Unsent record is ever
removed — and on the concrete store with 5 Sent and 2 Unsent records the
run deletes exactly 5 and leaves the 2 Unsent records. -/
theorem purge_deletes_exactly_sent (s : Store) :
    (purgeProcessedViolations s).1
      = (s.violations.filter (fun v => v.warningSent)).length ∧
    (purgeProcessedViolations s).2.violations
      = s.violations.filter (fun v => !v.warningSent) ∧
    (purgeProcessedViolations s).2.userVehicles = s.userVehicles ∧
    (∀ v ∈ s.violations, v.warningSent = false →
      v ∈ (purgeProcessedViolations s).2.violations) ∧
    (∀ v ∈ (purgeProcessedViolations s).2.violations, v.warningSent = false) ∧
    (purgeProcessedViolations sweepStore).1 = 5 ∧
    (purgeProcessedViolations sweepStore).2.violations = [mkUnsent 3, mkUnsent 6] := by
  have h2 : (purgeProcessedViolations s).2.violations
      = s.violations.filter (fun v => !v.warningSent) := by
    simp only [purgeProcessedViolations]
    split
    · next h => exact (filter_unsent_eq_self_of_no_sent s.violations h).symm
    · rfl
  have h1 : (purgeProcessedViolations s).1
      = (s.violations.filter (fun v => v.warningSent)).length := by
    simp only [purgeProcessedViolations]
    split
    · next h => exact h.symm
    · rfl
  have h3 : (purgeProcessedViolations s).2.userVehicles = s.userVehicles := by
    simp only [purgeProcessedViolations]
    split <;> rfl
  refine ⟨h1, h2, h3, ?_, ?_, by decide, by decide⟩
  · intro v hv hsent
    rw [h2]
    exact List.mem_filter.mpr ⟨hv, by simp [hsent]⟩
  · intro v hv
    rw [h2] at hv
    simpa using (List.mem_filter.mp hv).2

/-- Running totals of the scanner loop: folding the per-violation step over
a snapshot adds, to the starting counters, the number of records where both
send and mark succeed respectively the number where either fails. -/
lemma scanLoop_counts (sendFails markFails : Violation → Bool) (now : Nat)
    (l : List Violation) :
    ∀ (a b : Nat) (st : Store),
      (l.foldl (scanStep sendFails markFails now) (a, b, st)).1
        = a + l.countP (fun v => !sendFails v && !markFails v) ∧
      (l.foldl (scanStep sendFails markFails now) (a, b, st)).2.1
        = b + l.countP (fun v => sendFails v || markFails v) := by
  induction l with
  | nil => intro a b st; simp
  | cons v vs ih =>
      intro a b st
      by_cases hs : sendFails v = true
      · have step : scanStep sendFails markFails now (a, b, st) v = (a, b + 1, st) := by
          simp [scanStep, hs]
        rw [List.foldl_cons, step]
        obtain ⟨i1, i2⟩ := ih a (b + 1) st
        refine ⟨?_, ?_⟩
        · rw [i1]; simp [List.countP_cons, hs]
        · rw [i2]; simp only [List.countP_cons, hs]; simp; omega
      · by_cases hm : markFails v = true
        · have step : scanStep sendFails markFails now (a, b, st) v = (a, b + 1, st) := by
            simp [scanStep, hs, hm]
          rw [List.foldl_cons, step]
          obtain ⟨i1, i2⟩ := ih a (b + 1) st
          refine ⟨?_, ?_⟩
          · rw [i1]; simp [List.countP_cons, hs, hm]
          · rw [i2]; simp only [List.countP_cons, hs, hm]; simp; omega
        · have step : scanStep sendFails markFails now (a, b, st) v
              = (a + 1, b, (markViolationAsWarned v.violationId now st).2) := by
            simp [scanStep, hs, hm]
          rw [List.foldl_cons, step]
          obtain ⟨i1, i2⟩ := ih (a + 1) b (markViolationAsWarned v.violationId now st).2
          refine ⟨?_, ?_⟩
          · rw [i1]; simp only [List.countP_cons, hs, hm]; simp; omega
          · rw [i2]; simp [List.countP_cons, hs, hm]

/-- Success and failure predicates of the scanner partition the snapshot:
their counts sum to its length. -/
lemma countP_send_partition (sendFails markFails : Violation → Bool)
    (l : List Violation) :
    l.countP (fun v => !sendFails v && !markFails v)
      + l.countP (fun v => sendFails v || markFails v) = l.length := by
  induction l with
  | nil => simp
  | cons v vs ih =>
      by_cases hs : sendFails v = true
      · simp only [List.countP_cons, hs]; simp; omega
      · by_cases hm : markFails v = true
        · simp only [List.countP_cons, hs, hm]; simp; omega
        · simp only [List.countP_cons, hs, hm]; simp; omega

/-- Unsent violation record number i for the scanner scenario. -/
def scanV (i : Nat) : Violation :=
  { violationId := i, vehicleId := some "V1", email := "a@x.com",
    latitude := some 50, longitude := some 50, timestamp := some "T1",
    warningSent := false, warningSentAt := none, created := 0 }

/-- Store with three Unsent violations for the scanner scenario. -/
def scanStore : Store :=
  { userVehicles := [], violations := [scanV 1, scanV 2, scanV 3] }

/-- C5: a send or mark failure on one record does not abort a scanner run:
the run always completes, the success count is the number of unsent
records whose send and mark both succeeded, the failure count the number on
which either threw, and together they cover the whole unsent snapshot. In
the concrete scenario of three Unsent violations with the notifier failing
on the second, the run ends with records 1 and 3 Sent, record 2 still
Unsent, and the aggregate report success 2, failed 1. -/
theorem scanner_isolates_per_record_failures
    (sendFails markFails : Violation → Bool) (now : Nat) (s : Store) :
    (scanViolations false sendFails markFails now s).ok = true ∧
    (scanViolations false sendFails markFails now s).successCount
      = (getUnsentViolations s).countP (fun v => !sendFails v && !markFails v) ∧
    (scanViolations false sendFails markFails now s).failCount
      = (getUnsentViolations s).countP (fun v => sendFails v || markFails v) ∧
    (scanViolations false sendFails markFails now s).successCount
        + (scanViolations false sendFails markFails now s).failCount
      = (getUnsentViolations s).length ∧
    scanViolations false (fun v => v.violationId == 2) (fun _ => false) 9 scanStore
      = { ok := true, successCount := 2, failCount := 1,
          store := { userVehicles := [],
                     violations := [setWarned 9 (scanV 1), scanV 2,
                       setWarned 9 (scanV 3)] } } := by
  have hcounts := scanLoop_counts sendFails markFails now (getUnsentViolations s) 0 0 s
  have hok : (scanViolations false sendFails markFails now s).ok = true := by
    simp only [scanViolations]
    split
    · next h => simp at h
    · split <;> rfl
  have hsucc : (scanViolations false sendFails markFails now s).successCount
      = (getUnsentViolations s).countP (fun v => !sendFails v && !markFails v) := by
    simp only [scanViolations]
    split
    · next h => simp at h
    · split
      · next h =>
          simp only [List.isEmpty_iff] at h
          simp [h]
      · exact by simpa using hcounts.1
  have hfail : (scanViolations false sendFails markFails now s).failCount
      = (getUnsentViolations s).countP (fun v => sendFails v || markFails v) := by
    simp only [scanViolations]
    split
    · next h => simp at h
    · split
      · next h =>
          simp only [List.isEmpty_iff] at h
          simp [h]
      · exact by simpa using hcounts.2
  refine ⟨hok, hsucc, hfail, ?_, by decide⟩
  rw [hsucc, hfail]
  exact countP_send_partition sendFails markFails (getUnsentViolations s)

end GeofencePipeline
